import Mathlib

/-!
# tidb-metrics-viewer

A shallow embedding of the two Go source files of the repository,
`pkg/server/server.go` (`Config`, `NewServer`, `setPathWithPrefix`, `MustRun`) and
`cmd/tidb-metrics-viewer.go` (`rootCmdRun`, `main`, `mustCompileCORSRegexString`),
followed by theorems about them.

Conventions.

* A Go function returning `(*T, error)` returns `Option T × Option GoError`; `none` is `nil`.
* Calls into libraries whose result depends on the outside world (opening the dataset
  directory, compiling a regular expression, binding the listen address, the interrupt
  signal, draining connections) read their result from an explicit environment `Env`.
* The goroutine started by `MustRun` is resolved by the environment as well: it says what
  `ListenAndServe` returns before any `Shutdown` has been requested, if it returns at all.
* A process run is a trace of events together with an outcome.
-/

namespace TidbMetricsViewer

/-! ## Go values used by both packages -/

/-- Go `error` values: an error with a message, or one built by `fmt.Errorf("...%w", err)`,
which keeps the error it wraps. -/
inductive GoError where
  | base (msg : String)
  | wrap (pre : String) (inner : GoError)
deriving DecidableEq, Repr

/-- The method `Error()` of an error: for a wrapping error, the format's text followed by the
text of the wrapped error. -/
def GoError.Error : GoError → String
  | .base msg => msg
  | .wrap pre inner => pre ++ inner.Error

/-- The method `Unwrap()`: the wrapped error, if any. -/
def GoError.Unwrap : GoError → Option GoError
  | .base _ => none
  | .wrap _ inner => some inner

/-- Go `fmt.Errorf(pre + "%w", err)`. -/
def Errorf_w (pre : String) (err : GoError) : GoError := .wrap pre err

/-- Go `time.Duration`, a number of nanoseconds. -/
abbrev Duration := Int

/-- Go `time.Second`. -/
def Second : Duration := 1000000000

/-- Go `time.Minute`. -/
def Minute : Duration := 60 * Second

/-- Go `*regexp.Regexp`, identified by the expression it was compiled from. -/
structure Regexp where
  expr : String
deriving DecidableEq, Repr

/-- Go `context.Context`, reduced to what this program uses: an optional deadline and the
value stored by `httputil.ContextWithPath`. -/
structure Context where
  deadline : Option Nat
  path : Option String
deriving DecidableEq, Repr

/-- Go `context.TODO()`: an empty context; it has no deadline and carries no value. -/
def Context.TODO : Context := ⟨none, none⟩

/-- Go `httputil.ContextWithPath(ctx, path)`. -/
def ContextWithPath (ctx : Context) (path : String) : Context :=
  { ctx with path := some path }

/-! ## Package `server`: data -/

/-- The struct `Config` of `server.go`. -/
structure Config where
  DataDir : String
  CORSRegex : Option Regexp
  QueryTimeout : Duration
  QueryConcurrency : Int
  QueryMaxSamples : Int
  QueryLookbackDelta : Duration
deriving DecidableEq, Repr

/-- The handle returned by `tsdb.OpenDBReadOnly`. -/
structure DBReadOnly where
  dir : String
  handle : Nat
deriving DecidableEq, Repr

/-- Go-kit loggers; `NewServer` only ever makes the no-op logger. -/
inductive Logger where
  | nop
deriving DecidableEq, Repr

/-- Prometheus registerers; `NewServer` only names `prometheus.DefaultRegisterer`. -/
inductive Registerer where
  | default
deriving DecidableEq, Repr

/-- The `promql.ActiveQueryTracker` interface: the object through which the engine learns how
many queries may be active at once. -/
structure QueryTracker where
  maxConcurrent : Int
deriving DecidableEq, Repr

/-- The type of `NoStepSubqueryIntervalFn`; `NewServer` never supplies one. -/
structure SubqueryIntervalFn where
  millis : Int
deriving DecidableEq, Repr

/-- The struct `promql.EngineOpts`, with the seven fields the literal in `NewServer` sets. -/
structure EngineOpts where
  Logger : Logger
  Reg : Registerer
  MaxSamples : Int
  Timeout : Duration
  ActiveQueryTracker : Option QueryTracker
  LookbackDelta : Duration
  NoStepSubqueryIntervalFn : Option SubqueryIntervalFn
deriving DecidableEq, Repr

/-- The engine made by `promql.NewEngine`, identified by the options handed to it. -/
structure Engine where
  opts : EngineOpts
deriving DecidableEq, Repr

/-- Go `promql.NewEngine(opts)`. -/
def NewEngine (opts : EngineOpts) : Engine := ⟨opts⟩

/-- The bound on concurrently active queries that an engine is given: that of its query
tracker, and none when it has no tracker. -/
def Engine.concurrencyLimit (e : Engine) : Option Int :=
  e.opts.ActiveQueryTracker.map QueryTracker.maxConcurrent

/-- The struct `API`. Its declaration is in a file of package `server` that is not among the
sources; the fields here are the four that the struct literal in `NewServer` sets. -/
structure API where
  Queryable : DBReadOnly
  QueryEngine : Engine
  logger : Logger
  CORSOrigin : Option Regexp
deriving DecidableEq, Repr

/-! ## HTTP requests and handlers -/

/-- Go `url.URL`, reduced to its path. -/
structure URL where
  Path : String
deriving DecidableEq, Repr

/-- Go `*http.Request`, reduced to method, URL and context. -/
structure Request where
  Method : String
  URL : URL
  ctx : Context
deriving DecidableEq, Repr

/-- Go `r.WithContext(ctx)`: a copy of the request with its context replaced. -/
def Request.WithContext (r : Request) (ctx : Context) : Request :=
  { r with ctx := ctx }

/-- Go `http.ResponseWriter`, identified by a number. -/
structure ResponseWriter where
  conn : Nat
deriving DecidableEq, Repr

/-- One invocation of an endpoint: which endpoint ran, on which writer, with which request. -/
structure Call where
  endpoint : String
  w : ResponseWriter
  r : Request
deriving DecidableEq, Repr

/-- Go `http.HandlerFunc`. What a handler does is observed as the list of endpoint
invocations it makes. -/
abbrev HandlerFunc := ResponseWriter → Request → List Call

/-- Go `http.NotFound`. -/
def NotFound : HandlerFunc := fun w r => [⟨"http.NotFound", w, r⟩]

/-- An endpoint that records its own invocation and does nothing else. -/
def endpoint (name : String) : HandlerFunc := fun w r => [⟨name, w, r⟩]

/-- Go `strings.TrimPrefix(s, pfx)`. -/
def TrimPrefix (s pfx : String) : String :=
  if pfx.data.isPrefixOf s.data then ⟨s.data.drop pfx.data.length⟩ else s

/-- The instrumentation hook type of `route.Router`. -/
abbrev Instrumentation := String → HandlerFunc → HandlerFunc

/-- The function `setPathWithPrefix` of `server.go`. -/
def setPathWithPrefix (pfx : String) : Instrumentation :=
  fun _handlerName handler =>
    fun w r => handler w (r.WithContext (ContextWithPath r.ctx (pfx ++ r.URL.Path)))

/-- A `route.Router`: its instrumentation hook and the APIs registered on it. -/
structure Router where
  instrh : Option Instrumentation
  registered : List API

/-- Go `route.New()`. -/
def Router.New : Router := ⟨none, []⟩

/-- Go `(*Router).WithInstrumentation`: a router with the hook installed, composed around a
hook that is already there. -/
def Router.WithInstrumentation (r : Router) (instrh : Instrumentation) : Router :=
  match r.instrh with
  | none => { r with instrh := some instrh }
  | some old => { r with instrh := some (fun n h => instrh n (old n h)) }

/-- The method `api.Register(r)`. Its body is in a file that is not among the sources; here
it records the API on the router, and the routes an API serves are a parameter of
`Router.ServeHTTP`. -/
def API.Register (api : API) (r : Router) : Router :=
  { r with registered := r.registered ++ [api] }

/-- Go `(*Router).handle`: the handler stored for a route is the registered one, passed
through the instrumentation hook when there is one. -/
def Router.handle (r : Router) (handlerName : String) (h : HandlerFunc) : HandlerFunc :=
  match r.instrh with
  | some instrh => instrh handlerName h
  | none => h

/-- The routes of an API: for a request path, the name and handler of the route that matches. -/
abbrev Routes := API → String → Option (String × HandlerFunc)

/-- First registered API that has a route for the path. -/
def Router.lookup (routes : Routes) : List API → String → Option (String × HandlerFunc)
  | [], _ => none
  | api :: rest, path =>
    match routes api path with
    | some found => some found
    | none => Router.lookup routes rest path

/-- Go `(*Router).ServeHTTP`: run the stored handler of the matching route, or answer
not-found. -/
def Router.ServeHTTP (routes : Routes) (r : Router) : HandlerFunc :=
  fun w req =>
    match Router.lookup routes r.registered req.URL.Path with
    | some (name, h) => r.handle name h w req
    | none => NotFound w req

/-- The `http.Handler` values this program builds. -/
inductive Handler where
  | router (r : Router)
  | stripped (pfx : String) (h : Handler)

/-- Go `http.StripPrefix(pfx, h)`. -/
def StripPrefix (pfx : String) (h : Handler) : Handler :=
  if pfx = "" then h else .stripped pfx h

/-- The method `ServeHTTP` of a handler. For the handler made by `http.StripPrefix`: when
trimming the prefix shortens the path (`len(p) < len(r.URL.Path)`, lengths in bytes), the
inner handler gets a copy of the request with the trimmed path, otherwise the answer is
not-found. The raw path of a URL is not part of the model. -/
def Handler.ServeHTTP (routes : Routes) : Handler → HandlerFunc
  | .router r => r.ServeHTTP routes
  | .stripped pfx h => fun w r =>
    let p := TrimPrefix r.URL.Path pfx
    if p.utf8ByteSize < r.URL.Path.utf8ByteSize then
      h.ServeHTTP routes w { r with URL := { r.URL with Path := p } }
    else NotFound w r

/-- Go `*http.ServeMux`: the registered patterns with their handlers. -/
structure ServeMux where
  entries : List (String × Handler)

/-- Go `http.NewServeMux()`. -/
def NewServeMux : ServeMux := ⟨[]⟩

/-- Go `mux.Handle(pattern, handler)`. -/
def ServeMux.Handle (mux : ServeMux) (pattern : String) (h : Handler) : ServeMux :=
  ⟨mux.entries ++ [(pattern, h)]⟩

/-- The APIs reachable through a handler. -/
def Handler.apis : Handler → List API
  | .router r => r.registered
  | .stripped _ h => h.apis

/-- The APIs reachable through a mux. -/
def ServeMux.apis (mux : ServeMux) : List API :=
  mux.entries.flatMap fun e => e.2.apis

/-! ## Events and runs -/

/-- What a run of the program does that can be observed from outside. -/
inductive Event where
  | callNewServer (config : Config)
  | storeOpen (dir : String) (ok : Bool)
  | storeClose (dir : String)
  | logInfo (msg : String)
  | logFatal (msg : String)
  | listenAndServe (addr : String)
  | listenReturned (err : GoError)
  | interrupt
  | shutdown (ctx : Context)
  | shutdownReturned (err : Option GoError)
deriving DecidableEq, Repr

/-! ## Package `server`: `NewServer` -/

/-- The function `NewServer` of `server.go`. `openDB` stands for `tsdb.OpenDBReadOnly(_, nil)`.
The result is the pair the Go function returns, after the events of the call. -/
def NewServer (openDB : String → Except GoError DBReadOnly) (config : Config) :
    List Event × (Option ServeMux × Option GoError) :=
  match openDB config.DataDir with
  | .error err =>
    ([.storeOpen config.DataDir false], (none, some (Errorf_w "open DB failed: " err)))
  | .ok db =>
    let logger := Logger.nop
    let opts : EngineOpts :=
      { Logger := logger
        Reg := Registerer.default
        MaxSamples := config.QueryMaxSamples
        Timeout := config.QueryTimeout
        ActiveQueryTracker := none
        LookbackDelta := config.QueryLookbackDelta
        NoStepSubqueryIntervalFn := none }
    let queryEngine := NewEngine opts
    let api : API :=
      { Queryable := db
        QueryEngine := queryEngine
        logger := logger
        CORSOrigin := config.CORSRegex }
    let mux := NewServeMux
    let av1 := Router.New.WithInstrumentation ( setPathWithPrefix "/api/v1")
    let av1 := api.Register av1
    let mux := mux.Handle "/api/v1/" ( StripPrefix "/api/v1" (.router av1))
    ([.storeOpen config.DataDir true], (some mux, none))

/-! ## The environment of a run -/

/-- Go `http.ErrServerClosed`. -/
def ErrServerClosed : GoError := .base "http: Server closed"

/-- Go `context.DeadlineExceeded`. -/
def DeadlineExceeded : GoError := .base "context deadline exceeded"

/-- What the outside world answers during one run of the process. -/
structure Env where
  /-- Go `tsdb.OpenDBReadOnly(dir, nil)`. -/
  openDB : String → Except GoError DBReadOnly
  /-- Go `relabel.NewRegexp(s)`. -/
  NewRegexp : String → Except GoError Regexp
  /-- How the flag library reads the text of an integer flag. -/
  ParseInt : String → Option Int
  /-- What `ListenAndServe` returns while no `Shutdown` has been requested (a failure to bind
  the address, for one); `none` when it keeps serving until then. -/
  listenReturns : Option GoError
  /-- Whether an interrupt signal ever arrives. -/
  interrupt : Bool
  /-- How long the connections open at shutdown take to become idle; `none` when they never
  do. -/
  drain : Option Nat
  /-- The error from closing the listeners at shutdown. -/
  closeErr : Option GoError

/-- Go panics: a slice index out of range, or `panic(err)` with the text of the error. -/
inductive Panic where
  | indexOutOfRange (index length : Nat)
  | error (msg : String)
deriving DecidableEq, Repr

/-- How a function, or the process, ends: it returns, the process exits with a code, a panic
unwinds, or it waits forever. -/
inductive Outcome where
  | returned
  | exited (code : Int)
  | panicked (p : Panic)
  | blocked
deriving DecidableEq, Repr

/-- The events of a run and how it ends. -/
structure Run where
  trace : List Event
  outcome : Outcome
deriving DecidableEq, Repr

/-! ## Package `server`: `MustRun` -/

/-- Go `http.Server`, with the two fields `MustRun` sets. -/
structure Server where
  Handler : Option ServeMux
  Addr : String

/-- Go `(*http.Server).Shutdown(ctx)`: the listeners are closed, then the call waits until the
open connections are idle and returns the error from closing the listeners, or until the
context is done and returns the context's error. The result is `none` when neither ever
happens. -/
def Server.Shutdown (env : Env) (_server : Server) (ctx : Context) : Option (Option GoError) :=
  match env.drain, ctx.deadline with
  | some t, some d => if t ≤ d then some env.closeErr else some (some DeadlineExceeded)
  | some _, none => some env.closeErr
  | none, some _ => some (some DeadlineExceeded)
  | none, none => none

/-- The function `MustRun` of `server.go`, from the wait for the interrupt on (lines 100-108).
`served` says whether the goroutine is still inside `ListenAndServe`; if so, `Shutdown` makes
it return `ErrServerClosed`, which the goroutine accepts. -/
def MustRun.stop (env : Env) (server : Server) (served : Bool) (t : List Event) : Run :=
  if env.interrupt then
    let t := t ++ [.interrupt, .shutdown Context.TODO]
    let t := if served then t ++ [.listenReturned ErrServerClosed] else t
    match server.Shutdown env Context.TODO with
    | none => ⟨t, .blocked⟩
    | some (some err) =>
      ⟨t ++ [.shutdownReturned (some err), .logFatal ("Shutdown server failed: " ++ err.Error)],
        .exited 1⟩
    | some none => ⟨t ++ [.shutdownReturned none], .returned⟩
  else ⟨t, .blocked⟩

/-- The function `MustRun` of `server.go`. `logrus.Info` does not format: it prints its
arguments one after the other. `logrus.Fatalf` logs and exits the process with code 1. -/
def MustRun (env : Env) (mux : Option ServeMux) (host : String) (port : Int) : Run :=
  let server : Server := { Handler := mux, Addr := host ++ ":" ++ toString port }
  let t := [Event.logInfo ("Starting Prometheus query server at %s:%d" ++ host ++ toString port),
    Event.listenAndServe server.Addr]
  match env.listenReturns with
  | some err =>
    if err ≠ ErrServerClosed then
      ⟨t ++ [.listenReturned err, .logFatal ("Server listen failed: " ++ err.Error)], .exited 1⟩
    else MustRun.stop env server false (t ++ [.listenReturned err])
  | none => MustRun.stop env server true t

/-! ## Package `main` -/

/-- The package-level variables `host` and `port`. -/
structure Globals where
  host : String
  port : Int
deriving DecidableEq, Repr

/-- What a flag sets: one of the two package-level variables, or the help request of the
command library. -/
inductive FlagVar where
  | host
  | port
  | help
deriving DecidableEq, Repr

/-- One registered flag: name, one-letter shorthand, what it sets, usage text. -/
structure Flag where
  name : String
  shorthand : String
  var : FlagVar
  usage : String
deriving DecidableEq, Repr

/-- The name of the command, the first word of its `Use` line; the flag set of the command
carries it. -/
def commandName : String := "tidb-metrics-viewer"

/-- Go `(*pflag.FlagSet).AddFlag`, through which every `...VarP` call registers its flag. It
panics when the name is already registered, when the shorthand has more than one character,
and when the shorthand is already used by a registered flag. -/
def AddFlag (fs : List Flag) (flag : Flag) : Except Panic (List Flag) :=
  if fs.any (fun f => f.name = flag.name) then
    .error (.error (commandName ++ " flag redefined: " ++ flag.name))
  else if flag.shorthand = "" then .ok (fs ++ [flag])
  else if flag.shorthand.length > 1 then
    .error (.error ("\"" ++ flag.shorthand ++ "\" shorthand is more than one ASCII character"))
  else
    match fs.find? (fun f => f.shorthand = flag.shorthand) with
    | some used =>
      .error (.error ("unable to redefine '" ++ flag.shorthand ++ "' shorthand in \"" ++
        commandName ++ "\" flagset: it's already used for \"" ++ used.name ++ "\" flag"))
    | none => .ok (fs ++ [flag])

/-- The flag of `StringVarP(&host, "host", "h", "0.0.0.0", "Listen host")`. -/
def hostFlag : Flag := ⟨"host", "h", .host, "Listen host"⟩

/-- The flag of `IntVarP(&port, "port", "p", 14332, "Listen port")`. -/
def portFlag : Flag := ⟨"port", "p", .port, "Listen port"⟩

/-- The flag that the command library registers by itself when the command has no flag named
`help`: `BoolP("help", "h", false, usage)`. -/
def helpFlag : Flag := ⟨"help", "h", .help, "help for " ++ commandName⟩

/-- The two registrations in `main` (lines 43-46), on the empty flag set of the new command. -/
def registerFlags : Except Panic (List Flag) :=
  match AddFlag [] hostFlag with
  | .error p => .error p
  | .ok fs => AddFlag fs portFlag

/-- The values `host` and `port` hold once the flags are registered: their defaults. -/
def flagDefaults : Globals := ⟨"0.0.0.0", 14332⟩

/-- Go `(*cobra.Command).InitDefaultHelpFlag`, which `Execute` runs before it reads the command
line: when no flag is named `help`, the help flag is registered, with shorthand `h`. -/
def InitDefaultHelpFlag (fs : List Flag) : Except Panic (List Flag) :=
  if fs.any (fun f => f.name = "help") then .ok fs else AddFlag fs helpFlag

/-- One flag on the command line: written with its long name or with its shorthand, and the
value given to it. -/
structure FlagArg where
  long : Bool
  name : String
  value : String
deriving DecidableEq, Repr

/-- One command line, split by the flag library into flags and positional arguments. -/
structure Invocation where
  flags : List FlagArg
  args : List String
deriving DecidableEq, Repr

/-- The registered flag a command-line flag names. -/
def lookupFlag (fs : List Flag) (fa : FlagArg) : Option Flag :=
  fs.find? fun f => if fa.long then f.name = fa.name else f.shorthand = fa.name

/-- Go `strconv.ParseBool`. -/
def ParseBool (s : String) : Option Bool :=
  if s ∈ ["1", "t", "T", "TRUE", "true", "True"] then some true
  else if s ∈ ["0", "f", "F", "FALSE", "false", "False"] then some false
  else none

/-- Setting one flag, on the variables and the help request: an unknown flag and an
unreadable value are errors. -/
def setFlag (env : Env) (fs : List Flag) (st : Globals × Bool) (fa : FlagArg) :
    Except GoError (Globals × Bool) :=
  match lookupFlag fs fa with
  | none => .error (.base ("unknown flag: " ++ fa.name))
  | some f =>
    match f.var with
    | .host => .ok ({ st.1 with host := fa.value }, st.2)
    | .port =>
      match env.ParseInt fa.value with
      | some n => .ok ({ st.1 with port := n }, st.2)
      | none => .error (.base ("invalid argument " ++ fa.value ++ " for " ++ f.name))
    | .help =>
      match ParseBool fa.value with
      | some b => .ok (st.1, b)
      | none => .error (.base ("invalid argument " ++ fa.value ++ " for " ++ f.name))

/-- Setting the flags of a command line from left to right, stopping at the first error. -/
def parseFlags (env : Env) (fs : List Flag) :
    Globals × Bool → List FlagArg → Except GoError (Globals × Bool)
  | st, [] => .ok st
  | st, fa :: rest =>
    match setFlag env fs st fa with
    | .error err => .error err
    | .ok st' => parseFlags env fs st' rest

/-- Go `cobra.MinimumNArgs(n)`: an error when fewer than `n` positional arguments are given. -/
def MinimumNArgs (n : Nat) (args : List String) : Option GoError :=
  if args.length < n then
    some (.base ("requires at least " ++ toString n ++ " arg(s), only received " ++
      toString args.length))
  else none

/-- The function `mustCompileCORSRegexString`: the compiled expression, or the panic. -/
def mustCompileCORSRegexString (env : Env) (s : String) : Except Panic Regexp :=
  match env.NewRegexp s with
  | .error err => .error (.error err.Error)
  | .ok r => .ok r

/-- The function `rootCmdRun` of the command. `args[0]` panics on an empty slice;
`logrus.Fatal` logs and exits the process with code 1. -/
def rootCmdRun (env : Env) (g : Globals) (args : List String) : Run :=
  match args with
  | [] => ⟨[], .panicked (.indexOutOfRange 0 0)⟩
  | arg0 :: _ =>
    match mustCompileCORSRegexString env ".*" with
    | .error p => ⟨[], .panicked p⟩
    | .ok re =>
      let config : Config :=
        { DataDir := arg0
          CORSRegex := some re
          QueryTimeout := 2 * Minute
          QueryConcurrency := 20
          QueryMaxSamples := 50000000
          QueryLookbackDelta := 5 * Minute }
      match NewServer env.openDB config with
      | (t, (_, some err)) => ⟨.callNewServer config :: t ++ [.logFatal err.Error], .exited 1⟩
      | (t, (mux, none)) =>
        let r := MustRun env mux g.host g.port
        ⟨.callNewServer config :: t ++ r.trace, r.outcome⟩

/-- Go `rootCmd.Execute()` on a command with the registered flags `fs`, whose variables hold
`g`. The help flag is registered first, which panics when its name or its shorthand `h` is
taken. Then the flags of the command line are set; a help request ends the call without an
error and without running the command; the positional arguments are checked by
`cobra.MinimumNArgs(1)`; then `rootCmdRun` runs. The second component is the error `Execute`
returns. -/
def Execute (env : Env) (fs : List Flag) (g : Globals) (inv : Invocation) :
    Run × Option GoError :=
  match InitDefaultHelpFlag fs with
  | .error p => (⟨[], .panicked p⟩, none)
  | .ok fs =>
    match parseFlags env fs (g, false) inv.flags with
    | .error err => (⟨[], .returned⟩, some err)
    | .ok (g, help) =>
      if help then (⟨[], .returned⟩, none)
      else
        match MinimumNArgs 1 inv.args with
        | some err => (⟨[], .returned⟩, some err)
        | none => (rootCmdRun env g inv.args, none)

/-- How the process exits when `main` ends without calling `os.Exit`: code 0 when it returns,
code 2 when a panic reaches the top. -/
def exitOfMain : Outcome → Outcome
  | .returned => .exited 0
  | .panicked _ => .exited 2
  | o => o

/-- The function `main` of the command, as a run of the process: the two flags are
registered, `Execute` runs, and `os.Exit(1)` is called when it returns an error. -/
def main (env : Env) (inv : Invocation) : Run :=
  match registerFlags with
  | .error p => ⟨[], exitOfMain (.panicked p)⟩
  | .ok fs =>
    match Execute env fs flagDefaults inv with
    | (r, some _) => ⟨r.trace, .exited 1⟩
    | (r, none) => ⟨r.trace, exitOfMain r.outcome⟩

/-- The struct literal that `rootCmdRun` passes to `NewServer`, for a first positional
argument and a compiled CORS expression. -/
def rootConfig (arg0 : String) (re : Regexp) : Config :=
  { DataDir := arg0
    CORSRegex := some re
    QueryTimeout := 2 * Minute
    QueryConcurrency := 20
    QueryMaxSamples := 50000000
    QueryLookbackDelta := 5 * Minute }

/-- The first two events of every run of `MustRun`. -/
def MustRun.start (host : String) (port : Int) : List Event :=
  [.logInfo ("Starting Prometheus query server at %s:%d" ++ host ++ toString port),
    .listenAndServe (host ++ ":" ++ toString port)]

/-- Value of a run of decimal digits, continuing from `acc`. -/
def digitsValue : List Char → Nat → Option Nat
  | [], acc => some acc
  | ch :: cs, acc =>
    if ch.isDigit then digitsValue cs (10 * acc + (ch.toNat - 48)) else none

/-- Reading a decimal integer with an optional minus sign. -/
def decimal (s : String) : Option Int :=
  match s.data with
  | [] => none
  | '-' :: cs => if cs = [] then none else (digitsValue cs 0).map fun n => -(n : Int)
  | cs => (digitsValue cs 0).map Int.ofNat

/-- An environment in which everything succeeds and the interrupt arrives. -/
def Env.clean : Env :=
  { openDB := fun dir => .ok ⟨dir, 0⟩
    NewRegexp := fun s => .ok ⟨"^(?:" ++ s ++ ")$"⟩
    ParseInt := decimal
    listenReturns := none
    interrupt := true
    drain := some 0
    closeErr := none }

/-- The error of a listen address that is already in use. -/
def addrInUse : GoError := .base "listen tcp 0.0.0.0:14332: bind: address already in use"

/-- An error from closing a listener. -/
def closeFailed : GoError := .base "close tcp 0.0.0.0:14332: use of closed network connection"

/-- An environment in which the dataset directory does not open. -/
def Env.noDataset : Env :=
  { Env.clean with openDB := fun dir => .error (.base ("open " ++ dir ++ ": no such file")) }

/-- An environment in which the listen address cannot be bound. -/
def Env.noBind : Env := { Env.clean with listenReturns := some addrInUse }

/-- An environment in which closing the listener at shutdown fails. -/
def Env.closeFails : Env := { Env.clean with closeErr := some closeFailed }

/-- An environment in which a connection open at shutdown never becomes idle. -/
def Env.stuck : Env := { Env.clean with drain := none }

/-- A request for the query endpoint under the API route. -/
def sampleRequest : Request :=
  { Method := "GET", URL := ⟨"/api/v1/query"⟩, ctx := ⟨none, none⟩ }

/-- A route table with one route, `/query`, whose endpoint records its invocation. -/
def sampleRoutes : Routes :=
  fun _ path => if path = "/query" then some ("/query", endpoint "query") else none

/-- Number of times a trace opens the store. -/
def storeOpens (t : List Event) : Nat :=
  t.countP fun e => match e with
    | .storeOpen _ _ => true
    | _ => false

/-- Number of times a trace closes the store. -/
def storeCloses (t : List Event) : Nat :=
  t.countP fun e => match e with
    | .storeClose _ => true
    | _ => false

/-- The engines of the APIs reachable through the mux that `NewServer` returned. -/
def builtEngines (res : List Event × (Option ServeMux × Option GoError)) : List Engine :=
  match res.2.1 with
  | some mux => mux.apis.map API.QueryEngine
  | none => []

/-- A dataset opener that opens every directory. -/
def openAny : String → Except GoError DBReadOnly := fun dir => .ok ⟨dir, 0⟩

/-- A dataset opener that opens no directory. -/
def openNone : String → Except GoError DBReadOnly :=
  fun dir => .error (.base ("open " ++ dir ++ ": no such file or directory"))

/-- The `Config` that `rootCmdRun` makes for the directory `dump`. -/
def Config.sample : Config :=
  { DataDir := "dump"
    CORSRegex := some ⟨"^(?:.*)$"⟩
    QueryTimeout := 2 * Minute
    QueryConcurrency := 20
    QueryMaxSamples := 50000000
    QueryLookbackDelta := 5 * Minute }

/-! ## Theorems: `NewServer` -/

/-- C1 (evaluation of the code): `NewServer` never reads `QueryConcurrency`. Changing that
field of a `Config` changes nothing in what `NewServer` returns, and every engine it builds has
no query tracker and therefore no bound on concurrent queries. -/
theorem NewServer_QueryConcurrency_unread (openDB : String → Except GoError DBReadOnly)
    (c : Config) (n : Int) :
    NewServer openDB { c with QueryConcurrency := n } = NewServer openDB c ∧
    ∀ e ∈ builtEngines (NewServer openDB c), e.concurrencyLimit = none := by
  refine ⟨rfl, ?_⟩
  intro e he
  unfold NewServer builtEngines at he
  cases hdb : openDB c.DataDir with
  | error err => simp [hdb] at he
  | ok db =>
    simp [hdb, ServeMux.apis, ServeMux.Handle, NewServeMux, StripPrefix, Handler.apis,
      API.Register, Router.WithInstrumentation, Router.New] at he
    subst he
    rfl

/-- C2: When the dataset directory opens, `NewServer` returns a mux through which exactly one
API is reachable; the engine of that API was made from options with
`MaxSamples = c.QueryMaxSamples`, `Timeout = c.QueryTimeout` and
`LookbackDelta = c.QueryLookbackDelta`, and the store the API queries is the handle that
opening `c.DataDir` returned. -/
theorem NewServer_engine_options (openDB : String → Except GoError DBReadOnly) (c : Config)
    (db : DBReadOnly) (hopen : openDB c.DataDir = .ok db) :
    ∃ mux api, (NewServer openDB c).2 = (some mux, none) ∧ mux.apis = [api] ∧
      api.QueryEngine.opts.MaxSamples = c.QueryMaxSamples ∧
      api.QueryEngine.opts.Timeout = c.QueryTimeout ∧
      api.QueryEngine.opts.LookbackDelta = c.QueryLookbackDelta ∧
      api.Queryable = db ∧
      (NewServer openDB c).1 = [.storeOpen c.DataDir true] := by
  unfold NewServer
  simp only [hopen]
  exact ⟨_, _, rfl, rfl, rfl, rfl, rfl, rfl, trivial⟩

/-- Witness of C2 at the sample configuration, every directory opening. -/
theorem NewServer_engine_options_witness :
    ∃ mux api, (NewServer openAny Config.sample).2 = (some mux, none) ∧ mux.apis = [api] ∧
      api.QueryEngine.opts.MaxSamples = 50000000 ∧
      api.QueryEngine.opts.Timeout = 2 * Minute ∧
      api.QueryEngine.opts.LookbackDelta = 5 * Minute ∧
      api.Queryable = ⟨"dump", 0⟩ ∧
      (NewServer openAny Config.sample).1 = [.storeOpen "dump" true] :=
  NewServer_engine_options openAny Config.sample ⟨"dump", 0⟩ rfl

/-- C3: `NewServer` returns an error exactly when opening the dataset directory fails. In that
case the mux is nil and the error wraps the open error: its text is `open DB failed: `
followed by the text of the open error, and unwrapping it gives the open error. When the
directory opens, the mux is not nil and the error is nil. -/
theorem NewServer_error_iff_open_fails (openDB : String → Except GoError DBReadOnly)
    (c : Config) :
    ((NewServer openDB c).2.2 ≠ none ↔ ∃ err, openDB c.DataDir = .error err) ∧
    (∀ err, openDB c.DataDir = .error err →
      (NewServer openDB c).2.1.isNone = true ∧
      ∃ e, (NewServer openDB c).2.2 = some e ∧
        e.Error = "open DB failed: " ++ err.Error ∧ e.Unwrap = some err) ∧
    (∀ db, openDB c.DataDir = .ok db →
      (NewServer openDB c).2.1.isSome = true ∧ (NewServer openDB c).2.2 = none) := by
  unfold NewServer
  cases hdb : openDB c.DataDir with
  | error err => simp [Errorf_w, GoError.Error, GoError.Unwrap]
  | ok db => simp

/-- Witness of C3, on a directory that does not open and on one that does. -/
theorem NewServer_error_iff_open_fails_witness :
    ((NewServer openNone Config.sample).2.1.isNone = true ∧
      ∃ e, (NewServer openNone Config.sample).2.2 = some e ∧
        e.Error = "open DB failed: " ++
          (GoError.base ("open " ++ "dump" ++ ": no such file or directory")).Error ∧
        e.Unwrap = some (.base ("open " ++ "dump" ++ ": no such file or directory"))) ∧
    ((NewServer openAny Config.sample).2.1.isSome = true ∧
      (NewServer openAny Config.sample).2.2 = none) :=
  ⟨(NewServer_error_iff_open_fails openNone Config.sample).2.1 _ rfl,
   (NewServer_error_iff_open_fails openAny Config.sample).2.2 _ rfl⟩

/-! ## Normal forms of the runs -/

/-- Every run of `MustRun`, by what the environment answers. -/
theorem MustRun_eq (env : Env) (mux : Option ServeMux) (host : String) (port : Int) :
    MustRun env mux host port =
      match env.listenReturns, env.interrupt, env.drain, env.closeErr with
      | none, false, _, _ => ⟨MustRun.start host port, .blocked⟩
      | none, true, none, _ =>
        ⟨MustRun.start host port ++
          [.interrupt, .shutdown Context.TODO, .listenReturned ErrServerClosed], .blocked⟩
      | none, true, some _, some e =>
        ⟨MustRun.start host port ++
          [.interrupt, .shutdown Context.TODO, .listenReturned ErrServerClosed,
            .shutdownReturned (some e), .logFatal ("Shutdown server failed: " ++ e.Error)],
          .exited 1⟩
      | none, true, some _, none =>
        ⟨MustRun.start host port ++
          [.interrupt, .shutdown Context.TODO, .listenReturned ErrServerClosed,
            .shutdownReturned none], .returned⟩
      | some err, i, d, c =>
        if err ≠ ErrServerClosed then
          ⟨MustRun.start host port ++
            [.listenReturned err, .logFatal ("Server listen failed: " ++ err.Error)], .exited 1⟩
        else
          match i, d, c with
          | false, _, _ => ⟨MustRun.start host port ++ [.listenReturned err], .blocked⟩
          | true, none, _ =>
            ⟨MustRun.start host port ++
              [.listenReturned err, .interrupt, .shutdown Context.TODO], .blocked⟩
          | true, some _, some e =>
            ⟨MustRun.start host port ++
              [.listenReturned err, .interrupt, .shutdown Context.TODO,
                .shutdownReturned (some e), .logFatal ("Shutdown server failed: " ++ e.Error)],
              .exited 1⟩
          | true, some _, none =>
            ⟨MustRun.start host port ++
              [.listenReturned err, .interrupt, .shutdown Context.TODO,
                .shutdownReturned none], .returned⟩ := by
  rcases env with ⟨o, nr, pi, lr, i, d, c⟩
  cases lr <;> cases i <;> cases d <;> cases c <;>
    simp [MustRun, MustRun.stop, Server.Shutdown, Context.TODO, MustRun.start]

/-- Every run of `rootCmdRun`, by what the environment answers. -/
theorem rootCmdRun_eq (env : Env) (g : Globals) (args : List String) :
    rootCmdRun env g args =
      match args with
      | [] => ⟨[], .panicked (.indexOutOfRange 0 0)⟩
      | arg0 :: _ =>
        match env.NewRegexp ".*" with
        | .error err => ⟨[], .panicked (.error err.Error)⟩
        | .ok re =>
          match env.openDB arg0 with
          | .error err =>
            ⟨[.callNewServer (rootConfig arg0 re), .storeOpen arg0 false,
              .logFatal ("open DB failed: " ++ err.Error)], .exited 1⟩
          | .ok _ =>
            ⟨.callNewServer (rootConfig arg0 re) :: .storeOpen arg0 true ::
              (MustRun env none g.host g.port).trace,
              (MustRun env none g.host g.port).outcome⟩ := by
  cases args with
  | nil => rfl
  | cons a rest =>
    cases h3 : env.NewRegexp ".*" with
    | error e => simp [rootCmdRun, mustCompileCORSRegexString, h3]
    | ok re =>
      cases h4 : env.openDB a with
      | error e =>
        simp [rootCmdRun, mustCompileCORSRegexString, h3, NewServer, h4, rootConfig, Errorf_w,
          GoError.Error]
      | ok db =>
        simp [rootCmdRun, mustCompileCORSRegexString, h3, NewServer, h4, rootConfig,
          MustRun_eq env _ g.host g.port]

/-- The two registrations in `main` succeed and leave the flags `host` and `port`. -/
theorem registerFlags_eq : registerFlags = .ok [hostFlag, portFlag] := by
  rfl

/-- On the flags of `main`, registering the help flag panics: its shorthand is taken. -/
theorem InitDefaultHelpFlag_rootFlags :
    InitDefaultHelpFlag [hostFlag, portFlag] =
      .error (.error ("unable to redefine 'h' shorthand in \"tidb-metrics-viewer\" flagset: " ++
        "it's already used for \"host\" flag")) := by
  rfl

/-- Every run of the process: the panic in `Execute` reaches the top. -/
theorem main_eq (env : Env) (inv : Invocation) : main env inv = ⟨[], .exited 2⟩ := by
  simp [main, registerFlags_eq, Execute, InitDefaultHelpFlag_rootFlags, exitOfMain]

/-- Flags are set from left to right: of two values for `host`, the second one stays. -/
theorem parseFlags_host_twice (env : Env) (st : Globals × Bool) (a b : String) :
    parseFlags env [hostFlag, portFlag] st [⟨true, "host", a⟩, ⟨true, "host", b⟩] =
      .ok ({ st.1 with host := b }, st.2) := by
  simp [parseFlags, setFlag, lookupFlag, hostFlag, portFlag]

/-! ## Theorems: runs of the process -/

/-- C4 (evaluation of the code): On every command line the process exits with code 2 and
records no event: `Execute` panics while registering the help flag, whose shorthand `h` is the
one `main` gave to `host`, before `rootCmdRun` runs. This holds when the dataset does not
open, when the address cannot be bound, when shutdown fails and when everything would succeed.
Below `Execute` the exit codes are the expected ones: `rootCmdRun` returns (and a `main` that
returns exits with code 0) when `Shutdown` returned nil, and ends the process with code 1 when
the dataset could not be opened, never calling `ListenAndServe` then, when `ListenAndServe`
returned an error other than `ErrServerClosed`, and when `Shutdown` returned an error. -/
theorem process_exits_2_before_startup (env : Env) (inv : Invocation) (g : Globals)
    (args : List String) :
    main env inv = ⟨[], .exited 2⟩ ∧
    main Env.noDataset ⟨[], ["dump"]⟩ = ⟨[], .exited 2⟩ ∧
    main Env.noBind ⟨[], ["dump"]⟩ = ⟨[], .exited 2⟩ ∧
    main Env.closeFails ⟨[], ["dump"]⟩ = ⟨[], .exited 2⟩ ∧
    main Env.clean ⟨[], ["dump"]⟩ = ⟨[], .exited 2⟩ ∧
    (rootCmdRun Env.noDataset flagDefaults ["dump"]).outcome = .exited 1 ∧
    (rootCmdRun Env.noBind flagDefaults ["dump"]).outcome = .exited 1 ∧
    (rootCmdRun Env.closeFails flagDefaults ["dump"]).outcome = .exited 1 ∧
    (rootCmdRun Env.clean flagDefaults ["dump"]).outcome = .returned ∧
    exitOfMain .returned = .exited 0 ∧
    (.shutdownReturned none ∈ (rootCmdRun env g args).trace →
      .interrupt ∈ (rootCmdRun env g args).trace ∧
      (rootCmdRun env g args).outcome = .returned) ∧
    (∀ dir, .storeOpen dir false ∈ (rootCmdRun env g args).trace →
      (rootCmdRun env g args).outcome = .exited 1 ∧
        ∀ addr, .listenAndServe addr ∉ (rootCmdRun env g args).trace) ∧
    (∀ err, err ≠ ErrServerClosed → .listenReturned err ∈ (rootCmdRun env g args).trace →
      (rootCmdRun env g args).outcome = .exited 1) ∧
    (∀ err, .shutdownReturned (some err) ∈ (rootCmdRun env g args).trace →
      (rootCmdRun env g args).outcome = .exited 1) := by
  refine ⟨main_eq _ _, main_eq _ _, main_eq _ _, main_eq _ _, main_eq _ _, by decide,
    by decide, by decide, by decide, rfl, ?_⟩
  rw [rootCmdRun_eq]
  repeat' split
  all_goals try simp
  rw [MustRun_eq]
  repeat' split
  all_goals simp_all [MustRun.start]

/-- C5 (counterexample): in the run of `rootCmdRun` on the directory `dump` in which
everything succeeds, `NewServer` succeeds, `Shutdown` returns nil and `rootCmdRun` returns;
the trace opens the store once and closes it zero times, not once. -/
theorem clean_run_never_closes_store :
    Event.storeOpen "dump" true ∈ (rootCmdRun Env.clean flagDefaults ["dump"]).trace ∧
    Event.shutdownReturned none ∈ (rootCmdRun Env.clean flagDefaults ["dump"]).trace ∧
    (rootCmdRun Env.clean flagDefaults ["dump"]).outcome = .returned ∧
    storeOpens (rootCmdRun Env.clean flagDefaults ["dump"]).trace = 1 ∧
    storeCloses (rootCmdRun Env.clean flagDefaults ["dump"]).trace = 0 ∧
    ¬ (storeOpens (rootCmdRun Env.clean flagDefaults ["dump"]).trace = 1 ∧
      storeCloses (rootCmdRun Env.clean flagDefaults ["dump"]).trace = 1) := by
  decide

/-- C5 (amended): No run of `rootCmdRun` closes the store, and none opens it more than once.
In every run of `rootCmdRun` that reaches a clean shutdown (`Shutdown` returned nil), the
trace contains exactly one open of the store, a successful one, and no close, and
`rootCmdRun` returns. -/
theorem store_opened_once_never_closed (env : Env) (g : Globals) (args : List String) :
    storeCloses (rootCmdRun env g args).trace = 0 ∧
    storeOpens (rootCmdRun env g args).trace ≤ 1 ∧
    (.shutdownReturned none ∈ (rootCmdRun env g args).trace →
      storeOpens (rootCmdRun env g args).trace = 1 ∧
      (∃ dir, .storeOpen dir true ∈ (rootCmdRun env g args).trace) ∧
      (rootCmdRun env g args).outcome = .returned) := by
  rw [rootCmdRun_eq]
  repeat' split
  all_goals try simp [storeCloses, storeOpens]
  rw [MustRun_eq]
  repeat' split
  all_goals simp_all [MustRun.start, List.countP_cons]

/-- Witness of C5 (amended) at the run on the directory `dump` in which everything
succeeds. -/
theorem store_opened_once_never_closed_witness :
    Event.shutdownReturned none ∈ (rootCmdRun Env.clean flagDefaults ["dump"]).trace ∧
    storeCloses (rootCmdRun Env.clean flagDefaults ["dump"]).trace = 0 ∧
    storeOpens (rootCmdRun Env.clean flagDefaults ["dump"]).trace = 1 ∧
    (rootCmdRun Env.clean flagDefaults ["dump"]).outcome = .returned :=
  ⟨by decide, (store_opened_once_never_closed Env.clean flagDefaults ["dump"]).1,
    ((store_opened_once_never_closed Env.clean flagDefaults ["dump"]).2.2 (by decide)).1,
    ((store_opened_once_never_closed Env.clean flagDefaults ["dump"]).2.2 (by decide)).2.2⟩

/-- C6 (counterexample): when a connection open at shutdown never becomes idle, `MustRun`
calls `Shutdown` with a context that has no deadline, `Shutdown` never returns, nothing is
logged as fatal and `MustRun` neither returns nor ends the process. -/
theorem shutdown_without_deadline_blocks :
    Event.interrupt ∈ (MustRun Env.stuck none "0.0.0.0" 14332).trace ∧
    Event.shutdown Context.TODO ∈ (MustRun Env.stuck none "0.0.0.0" 14332).trace ∧
    Context.TODO.deadline = none ∧
    (∀ err, Event.shutdownReturned err ∉ (MustRun Env.stuck none "0.0.0.0" 14332).trace) ∧
    (∀ msg, Event.logFatal msg ∉ (MustRun Env.stuck none "0.0.0.0" 14332).trace) ∧
    (MustRun Env.stuck none "0.0.0.0" 14332).outcome = .blocked := by
  refine ⟨by decide, by decide, rfl, ?_, ?_, by decide⟩
  · intro err
    simp [MustRun_eq, Env.stuck, Env.clean, MustRun.start]
  · intro msg
    simp [MustRun_eq, Env.stuck, Env.clean, MustRun.start]

/-- C6 (amended): Every context that `MustRun` hands to `Shutdown` is `context.TODO()`, which
has no deadline. When `Shutdown` returns an error, the failure is logged as fatal with the
text `Shutdown server failed: ` followed by the error, and the process exits with code 1.
When `Shutdown` is called and the open connections never become idle, `MustRun` neither
returns nor ends the process. -/
theorem shutdown_unbounded (env : Env) (mux : Option ServeMux) (host : String) (port : Int) :
    (∀ ctx, .shutdown ctx ∈ (MustRun env mux host port).trace →
      ctx = Context.TODO ∧ ctx.deadline = none) ∧
    (∀ err, .shutdownReturned (some err) ∈ (MustRun env mux host port).trace →
      .logFatal ("Shutdown server failed: " ++ err.Error) ∈ (MustRun env mux host port).trace ∧
      (MustRun env mux host port).outcome = .exited 1) ∧
    (∀ ctx, .shutdown ctx ∈ (MustRun env mux host port).trace → env.drain = none →
      (MustRun env mux host port).outcome = .blocked) := by
  rw [MustRun_eq]
  repeat' split
  all_goals simp_all [MustRun.start, Context.TODO]

/-- Witness of C6 (amended): a shutdown that returns an error, and one that never returns. -/
theorem shutdown_unbounded_witness :
    (Event.shutdown Context.TODO ∈ (MustRun Env.stuck none "0.0.0.0" 14332).trace ∧
      Context.TODO.deadline = none) ∧
    (Event.shutdownReturned (some closeFailed) ∈
        (MustRun Env.closeFails none "0.0.0.0" 14332).trace ∧
      Event.logFatal ("Shutdown server failed: " ++ closeFailed.Error) ∈
        (MustRun Env.closeFails none "0.0.0.0" 14332).trace ∧
      (MustRun Env.closeFails none "0.0.0.0" 14332).outcome = .exited 1) ∧
    (Env.stuck.drain = none ∧ (MustRun Env.stuck none "0.0.0.0" 14332).outcome = .blocked) :=
  have h1 : Event.shutdown Context.TODO ∈ (MustRun Env.stuck none "0.0.0.0" 14332).trace := by
    decide
  have h2 : Event.shutdownReturned (some closeFailed) ∈
      (MustRun Env.closeFails none "0.0.0.0" 14332).trace := by decide
  ⟨⟨h1, ((shutdown_unbounded Env.stuck none "0.0.0.0" 14332).1 _ h1).2⟩,
   ⟨h2, (shutdown_unbounded Env.closeFails none "0.0.0.0" 14332).2.1 closeFailed h2⟩,
   ⟨rfl, (shutdown_unbounded Env.stuck none "0.0.0.0" 14332).2.2 _ h1 rfl⟩⟩

/-! ## Theorems: the command line -/

/-- C7 (counterexample): `main` registers two flags, named `host` and `port`; no registered
flag is named by `--query-timeout`; and whatever the variables `host` and `port` hold, here
`127.0.0.1` and 8080, the `Config` that `rootCmdRun` passes to `NewServer` for the directory
`dump` has the query timeout 2 minutes, the concurrency 20, the sample budget 50000000 and the
lookback delta 5 minutes. -/
theorem query_limits_are_not_options :
    registerFlags = .ok [hostFlag, portFlag] ∧
    [hostFlag, portFlag].map Flag.name = ["host", "port"] ∧
    lookupFlag [hostFlag, portFlag] ⟨true, "query-timeout", "1m"⟩ = none ∧
    (rootCmdRun Env.clean ⟨"127.0.0.1", 8080⟩ ["dump"]).trace.head? =
      some (.callNewServer
        { DataDir := "dump"
          CORSRegex := some ⟨"^(?:.*)$"⟩
          QueryTimeout := 120000000000
          QueryConcurrency := 20
          QueryMaxSamples := 50000000
          QueryLookbackDelta := 300000000000 }) :=
  ⟨rfl, by decide, by decide, by decide⟩

/-- C7 (amended): `main` registers exactly two flags, `host` and `port`, which set the
variables `host` and `port`. In every run of `rootCmdRun`, the address handed to
`ListenAndServe` is the value of `host`, a colon and the value of `port`, and every `Config`
passed to `NewServer` has the first positional argument as `DataDir` and the fixed values
2 minutes, 20, 50000000 and 5 minutes for query timeout, query concurrency, max samples and
lookback delta. -/
theorem options_are_host_and_port (env : Env) (g : Globals) (args : List String) :
    registerFlags = .ok [hostFlag, portFlag] ∧
    [hostFlag, portFlag].map (fun f => (f.name, f.var)) =
      [("host", FlagVar.host), ("port", FlagVar.port)] ∧
    (∀ addr, .listenAndServe addr ∈ (rootCmdRun env g args).trace →
      addr = g.host ++ ":" ++ toString g.port) ∧
    (∀ cfg, .callNewServer cfg ∈ (rootCmdRun env g args).trace →
      args.head? = some cfg.DataDir ∧ cfg.QueryTimeout = 2 * Minute ∧
      cfg.QueryConcurrency = 20 ∧ cfg.QueryMaxSamples = 50000000 ∧
      cfg.QueryLookbackDelta = 5 * Minute) := by
  refine ⟨rfl, by decide, ?_, ?_⟩
  · intro addr
    rw [rootCmdRun_eq]
    repeat' split
    all_goals try simp
    rw [MustRun_eq]
    repeat' split
    all_goals simp_all [MustRun.start]
  · intro cfg
    rw [rootCmdRun_eq]
    repeat' split
    all_goals try simp
    · rintro rfl
      simp_all [rootConfig]
    · rw [MustRun_eq]
      repeat' split
      all_goals simp_all [MustRun.start, rootConfig]

/-- Witness of C7 (amended): `rootCmdRun` on the directory `dump` with `host` holding
`127.0.0.1` and `port` holding 8080. -/
theorem options_are_host_and_port_witness :
    Event.listenAndServe "127.0.0.1:8080" ∈
      (rootCmdRun Env.clean ⟨"127.0.0.1", 8080⟩ ["dump"]).trace ∧
    "127.0.0.1:8080" = "127.0.0.1" ++ ":" ++ toString (8080 : Int) ∧
    Event.callNewServer Config.sample ∈
      (rootCmdRun Env.clean ⟨"127.0.0.1", 8080⟩ ["dump"]).trace ∧
    ["dump"].head? = some Config.sample.DataDir ∧
    Config.sample.QueryTimeout = 2 * Minute ∧ Config.sample.QueryConcurrency = 20 ∧
    Config.sample.QueryMaxSamples = 50000000 ∧ Config.sample.QueryLookbackDelta = 5 * Minute :=
  have hl : Event.listenAndServe "127.0.0.1:8080" ∈
      (rootCmdRun Env.clean ⟨"127.0.0.1", 8080⟩ ["dump"]).trace := by decide
  have hc : Event.callNewServer Config.sample ∈
      (rootCmdRun Env.clean ⟨"127.0.0.1", 8080⟩ ["dump"]).trace := by decide
  ⟨hl, (options_are_host_and_port Env.clean ⟨"127.0.0.1", 8080⟩ ["dump"]).2.2.1 _ hl, hc,
    (options_are_host_and_port Env.clean ⟨"127.0.0.1", 8080⟩ ["dump"]).2.2.2 _ hc⟩

/-- C8 (evaluation of the code): `cobra.MinimumNArgs(1)` accepts exactly the non-empty
argument lists. On every such list `rootCmdRun` reads `args[0]` in bounds, does not panic on
the index, passes to `NewServer` only a `Config` whose `DataDir` is that first element, and
does pass one whenever the CORS expression compiles. With an empty argument list the
validator would refuse, but it is never asked: `Execute` panics while registering the help
flag, returns no error, and the process exits with code 2, not 1. -/
theorem empty_arguments_exit_2 (env : Env) (g : Globals) (a : String) (rest : List String)
    (flags : List FlagArg) :
    (∀ args, MinimumNArgs 1 args = none ↔ args ≠ []) ∧
    (a :: rest)[0]? = some a ∧
    (rootCmdRun env g (a :: rest)).outcome ≠ .panicked (.indexOutOfRange 0 0) ∧
    (∀ cfg, .callNewServer cfg ∈ (rootCmdRun env g (a :: rest)).trace → cfg.DataDir = a) ∧
    (∀ re, env.NewRegexp ".*" = .ok re →
      .callNewServer (rootConfig a re) ∈ (rootCmdRun env g (a :: rest)).trace) ∧
    MinimumNArgs 1 [] ≠ none ∧
    (Execute env [hostFlag, portFlag] flagDefaults ⟨flags, []⟩).2 = none ∧
    (∃ p, (Execute env [hostFlag, portFlag] flagDefaults ⟨flags, []⟩).1 =
      ⟨[], .panicked p⟩) ∧
    main env ⟨flags, []⟩ = ⟨[], .exited 2⟩ ∧
    (main env ⟨flags, []⟩).outcome ≠ .exited 1 := by
  refine ⟨?_, by simp, ?_, ?_, ?_, by simp [MinimumNArgs], ?_, ?_, main_eq _ _, ?_⟩
  · intro args
    cases args <;> simp [MinimumNArgs]
  · rw [rootCmdRun_eq]
    dsimp only
    repeat' split
    all_goals try simp
    rw [MustRun_eq]
    repeat' split
    all_goals simp
  · intro cfg
    rw [rootCmdRun_eq]
    dsimp only
    repeat' split
    all_goals try simp
    · rintro rfl
      rfl
    · rw [MustRun_eq]
      repeat' split
      all_goals simp_all [MustRun.start, rootConfig]
  · intro re hre
    rw [rootCmdRun_eq]
    simp only [hre]
    split <;> simp
  · simp [Execute, InitDefaultHelpFlag_rootFlags]
  · refine ⟨.error ("unable to redefine 'h' shorthand in \"tidb-metrics-viewer\" flagset: " ++
      "it's already used for \"host\" flag"), ?_⟩
    simp [Execute, InitDefaultHelpFlag_rootFlags]
  · rw [main_eq]
    decide

/-! ## Theorems: the API route -/

/-- Trimming a prefix that is there leaves what follows it. -/
theorem TrimPrefix_append (pfx rest : String) : TrimPrefix (pfx ++ rest) pfx = rest := by
  simp [TrimPrefix, String.data_append]

/-- What follows a non-empty prefix is shorter, in bytes, than the whole string. -/
theorem utf8ByteSize_lt_append (pfx rest : String) (h : pfx ≠ "") :
    rest.utf8ByteSize < (pfx ++ rest).utf8ByteSize := by
  rcases pfx with ⟨p⟩
  rcases rest with ⟨r⟩
  have hp : p ≠ [] := fun hnil => h (by rw [hnil])
  have : String.utf8Len p ≠ 0 := by simpa using hp
  show String.utf8Len r < String.utf8Len (p ++ r)
  rw [String.utf8Len_append]
  omega

/-- C10: Under the mux that `NewServer` returns there is one handler, for the pattern
`/api/v1/`, and one API. For every request whose URL path is `/api/v1/` followed by `rest`,
that handler asks the router for the route of the path `/` followed by `rest`, the original
path without `/api/v1`; when there is one, its handler is called once, with the same response
writer and a request whose context path is the original path. The wrapper made by
`setPathWithPrefix("/api/v1")` calls the wrapped handler once, with the writer it was given and
the request it was given, the context path set to `/api/v1` followed by the URL path. -/
theorem api_route_path_restored (openDB : String → Except GoError DBReadOnly) (c : Config)
    (mux : ServeMux) (hmux : (NewServer openDB c).2.1 = some mux) (routes : Routes)
    (w : ResponseWriter) (r : Request) (rest : String)
    (hpath : r.URL.Path = "/api/v1/" ++ rest) :
    (∃ h api, mux.entries = [("/api/v1/", h)] ∧ mux.apis = [api] ∧
      h.ServeHTTP routes w r =
        match routes api ("/" ++ rest) with
        | some (_, handler) =>
          handler w { Method := r.Method, URL := ⟨"/" ++ rest⟩,
                      ctx := { r.ctx with path := some r.URL.Path } }
        | none => NotFound w { r with URL := ⟨"/" ++ rest⟩ }) ∧
    (∀ (name : String) (handler : HandlerFunc) (w' : ResponseWriter) (r' : Request),
      setPathWithPrefix "/api/v1" name handler w' r' =
        handler w' { r' with ctx := { r'.ctx with path := some ("/api/v1" ++ r'.URL.Path) } }) ∧
    (∀ (name n : String) (w' : ResponseWriter) (r' : Request),
      setPathWithPrefix "/api/v1" name (endpoint n) w' r' =
        [⟨n, w', { r' with ctx := { r'.ctx with path := some ("/api/v1" ++ r'.URL.Path) } }⟩]) := by
  refine ⟨?_, fun _ _ _ _ => rfl, fun _ _ _ _ => rfl⟩
  have hsplit : r.URL.Path = "/api/v1" ++ ("/" ++ rest) := by
    rw [hpath]
    apply String.ext
    simp [String.data_append]
  unfold NewServer at hmux
  cases hdb : openDB c.DataDir with
  | error err => simp [hdb] at hmux
  | ok db =>
    simp only [hdb, Option.some.injEq] at hmux
    subst hmux
    refine ⟨_, _, rfl, rfl, ?_⟩
    have hlt : ("/" ++ rest).utf8ByteSize < ("/api/v1" ++ ("/" ++ rest)).utf8ByteSize :=
      utf8ByteSize_lt_append _ _ (by decide)
    simp only [Handler.ServeHTTP, hsplit, TrimPrefix_append, hlt, if_true, Router.ServeHTTP,
      API.Register, Router.WithInstrumentation, Router.New, List.nil_append, Router.lookup]
    cases routes _ ("/" ++ rest) with
    | none => rfl
    | some found => rfl

/-- Witness of C10: a GET of `/api/v1/query` reaches the endpoint registered for `/query`,
once, with the context path `/api/v1/query`. -/
theorem api_route_path_restored_witness :
    ∃ mux, (NewServer openAny Config.sample).2.1 = some mux ∧
      sampleRequest.URL.Path = "/api/v1/" ++ "query" ∧
      ∃ h api, mux.entries = [("/api/v1/", h)] ∧ mux.apis = [api] ∧
        h.ServeHTTP sampleRoutes ⟨7⟩ sampleRequest =
          [⟨"query", ⟨7⟩,
            { Method := "GET", URL := ⟨"/query"⟩, ctx := ⟨none, some "/api/v1/query"⟩ }⟩] := by
  refine ⟨_, rfl, rfl, ?_⟩
  obtain ⟨h, api, h1, h2, h3⟩ :=
    (api_route_path_restored openAny Config.sample _ rfl sampleRoutes ⟨7⟩ sampleRequest
      "query" rfl).1
  refine ⟨h, api, h1, h2, ?_⟩
  rw [h3]
  rfl

end TidbMetricsViewer
